import Mathlib

/-!
Shallow embedding of the mesh messenger core of `src/mesh/dmasst.py`:
the message store (`Storage`), the relay engine (`on_incoming_message`),
the SOS resend scheduler (`sos_resender_task`, one cycle), and the
connectivity monitor (`SignalNotifier.run`, one probe step).

JSON packets are modelled as records of `Option` fields (an absent key is
`none`); Python `msg.get(k, d)` is `Option.getD`.  The sqlite `messages`
table is a list of rows in `rowid` (insertion) order; `ORDER BY rowid ASC`
is list order.  Python integers are `Int`.  Wall-clock timestamps are
passed in as an explicit `now : String` argument.
-/

/-- Constant `MESSAGE_TTL = 6` of dmasst.py. -/
def MESSAGE_TTL : Int := 6

/-- Constant `MAX_SOS_RESENDS = 6` of dmasst.py. -/
def MAX_SOS_RESENDS : Int := 6

/-- A wire packet: the JSON dictionary sent or received over UDP.
Every key that any packet shape may carry is an optional field. -/
structure Packet where
  type : Option String := none
  id : Option String := none
  origin_id : Option String := none
  origin_label : Option String := none
  dest_id : Option String := none
  subtype : Option String := none
  payload : Option String := none
  timestamp : Option String := none
  hops : Option Int := none
  ttl : Option Int := none
  orig_msg_id : Option String := none
  from_node : Option String := none
deriving DecidableEq

/-- A row of the `messages` table created by `Storage._init`. -/
structure MessageRecord where
  id : String
  origin_id : String
  origin_label : String
  dest_id : String
  type : String
  payload : String
  timestamp : String
  received_at : String
  hops : Int
  ttl : Int
  forwarded : Int
  acknowledged : Int
  resend_count : Int
deriving DecidableEq

/-- The `messages` table: rows in `rowid` (insertion) order. -/
abbrev Storage := List MessageRecord

/-- The dictionary argument of `Storage.insert_message`: the key `id` is
mandatory (`msg["id"]`), all other keys are read with `msg.get(k, default)`. -/
structure InsertArg where
  id : String
  origin_id : Option String := none
  origin_label : Option String := none
  dest_id : Option String := none
  type : Option String := none
  payload : Option String := none
  timestamp : Option String := none
  hops : Option Int := none
  ttl : Option Int := none
  forwarded : Option Int := none
  acknowledged : Option Int := none
  resend_count : Option Int := none
deriving DecidableEq

/-- The row written by `Storage.insert_message`: every column value of the
INSERT, with the `msg.get(k, default)` defaults applied. -/
def inserted_row (msg : InsertArg) (now : String) : MessageRecord :=
  { id := msg.id,
    origin_id := msg.origin_id.getD "",
    origin_label := msg.origin_label.getD "",
    dest_id := msg.dest_id.getD "",
    type := msg.type.getD "",
    payload := msg.payload.getD "",
    timestamp := msg.timestamp.getD now,
    received_at := now,
    hops := msg.hops.getD 0,
    ttl := msg.ttl.getD MESSAGE_TTL,
    forwarded := msg.forwarded.getD 0,
    acknowledged := msg.acknowledged.getD 0,
    resend_count := msg.resend_count.getD 0 }

/-- `Storage.insert_message`: INSERT of a new row; a duplicate primary key
`id` raises `IntegrityError`, caught and turned into `False` with the table
untouched.  Returns the Python boolean paired with the table afterwards. -/
def Storage.insert_message (st : Storage) (msg : InsertArg) (now : String) :
    Bool × Storage :=
  if st.any (fun r => decide (r.id = msg.id)) then (false, st)
  else (true, st ++ [inserted_row msg now])

/-- `Storage.mark_forwarded`: `UPDATE messages SET forwarded = 1 WHERE id = ?`. -/
def Storage.mark_forwarded (st : Storage) (message_id : String) : Storage :=
  st.map (fun r => if r.id = message_id then { r with forwarded := 1 } else r)

/-- `Storage.mark_acknowledged`: `UPDATE messages SET acknowledged = 1 WHERE id = ?`. -/
def Storage.mark_acknowledged (st : Storage) (message_id : String) : Storage :=
  st.map (fun r => if r.id = message_id then { r with acknowledged := 1 } else r)

/-- `Storage.increment_resend`:
`UPDATE messages SET resend_count = resend_count + 1 WHERE id = ?`. -/
def Storage.increment_resend (st : Storage) (message_id : String) : Storage :=
  st.map (fun r => if r.id = message_id then { r with resend_count := r.resend_count + 1 } else r)

/-- `Storage.get_message`: `SELECT * FROM messages WHERE id = ?`, first row. -/
def Storage.get_message (st : Storage) (message_id : String) : Option MessageRecord :=
  st.find? (fun r => decide (r.id = message_id))

/-- `Storage.get_pending_messages`:
`SELECT * FROM messages WHERE forwarded=0 OR (type='SOS' AND acknowledged=0)`. -/
def Storage.get_pending_messages (st : Storage) : List MessageRecord :=
  st.filter (fun r => decide (r.forwarded = 0 ∨ (r.type = "SOS" ∧ r.acknowledged = 0)))

/-- `Storage.get_unacknowledged_sos`:
`SELECT * FROM messages WHERE type='SOS' AND acknowledged=0 AND ttl > 0 ORDER BY rowid ASC`
(the `age_limit_seconds` cutoff is computed but never used in the query). -/
def Storage.get_unacknowledged_sos (st : Storage) : List MessageRecord :=
  st.filter (fun r => decide (r.type = "SOS" ∧ r.acknowledged = 0 ∧ 0 < r.ttl))

/-- The acknowledgement packet built in `on_incoming_message`:
`{"type": "DM_ACK", "orig_msg_id": mid, "from_node": udp_peer.node_id, "timestamp": now_iso()}`. -/
def ack_packet (mid node_id now : String) : Packet :=
  { type := some "DM_ACK", orig_msg_id := some mid, from_node := some node_id,
    timestamp := some now }

/-- `on_incoming_message(msg, addr, storage, udp_peer)`: the relay engine.
Returns the table afterwards and the packets handed to
`udp_peer.send_packet`, in emission order. -/
def on_incoming_message (msg : Packet) (node_id : String) (st : Storage) (now : String) :
    Storage × List Packet :=
  let t := msg.type.getD ""
  if t = "ANNOUNCE" then (st, [])
  else if t = "DM_MSG" then
    let dest := msg.dest_id.getD ""
    if dest ≠ "" ∧ dest ≠ node_id then (st, [])
    else
      let mid := msg.id.getD ""
      if mid = "" then (st, [])
      else
        let hops := msg.hops.getD 0
        let ttl := msg.ttl.getD MESSAGE_TTL
        let ins := Storage.insert_message st
          { id := mid, origin_id := msg.origin_id, origin_label := msg.origin_label,
            dest_id := msg.dest_id, type := some (msg.subtype.getD "SOS"),
            payload := msg.payload, timestamp := some (msg.timestamp.getD now),
            hops := some hops, ttl := some ttl } now
        if ins.1 then
          if hops < ttl then
            (ins.2, [ack_packet mid node_id now, { msg with hops := some (hops + 1) }])
          else (ins.2, [ack_packet mid node_id now])
        else (st, [])
  else if t = "DM_ACK" then
    let omid := msg.orig_msg_id.getD ""
    if omid = "" then (st, [])
    else
      match Storage.get_message st omid with
      | some _ => (Storage.mark_acknowledged st omid, [])
      | none => (st, [])
  else (st, [])

/-- The flood packet rebuilt from a stored row by `sos_resender_task`
(`hops` reset to `0`, other fields copied from the row). -/
def resend_packet (row : MessageRecord) : Packet :=
  { type := some "DM_MSG", id := some row.id, origin_id := some row.origin_id,
    origin_label := some row.origin_label, dest_id := some row.dest_id,
    subtype := some row.type, payload := some row.payload,
    timestamp := some row.timestamp, hops := some 0, ttl := some row.ttl }

/-- One row of the `for row in rows` loop body of `sos_resender_task`. -/
def sos_cycle_step (node_id : String) (acc : Storage × List Packet)
    (row : MessageRecord) : Storage × List Packet :=
  if row.origin_id ≠ node_id then acc
  else if MAX_SOS_RESENDS ≤ row.resend_count then acc
  else (Storage.increment_resend acc.1 row.id, acc.2 ++ [resend_packet row])

/-- One cycle of `sos_resender_task`: fetch the snapshot
`storage.get_unacknowledged_sos()` once, then run the loop over it.
Returns the table afterwards and the packets sent, in order. -/
def sos_resender_cycle (node_id : String) (st : Storage) : Storage × List Packet :=
  (Storage.get_unacknowledged_sos st).foldl (sos_cycle_step node_id) (st, [])

/-- The table after `k` consecutive cycles of `sos_resender_task`. -/
def sos_cycleN (node_id : String) : Nat → Storage → Storage
  | 0, st => st
  | k + 1, st => (sos_resender_cycle node_id (sos_cycleN node_id k st)).1

/-- The forwarding batch of `SignalNotifier.run`: fetch
`get_pending_messages()` once, then `mark_forwarded` each row of the
snapshot (the upstream send itself is simulated by a log line). -/
def forward_pending (st : Storage) : Storage :=
  (Storage.get_pending_messages st).foldl
    (fun acc row => Storage.mark_forwarded acc row.id) st

/-- The mutable state of a `SignalNotifier`: its `_seen_online` flag and
the shared message table. -/
structure NotifierState where
  seen_online : Bool
  store : Storage
deriving DecidableEq

/-- One iteration of the `while True` loop of `SignalNotifier.run`, given
the probe result `online`.  Returns the state afterwards and whether a
forwarding batch ran in this iteration. -/
def notifier_step (s : NotifierState) (online : Bool) : NotifierState × Bool :=
  if online && !s.seen_online then
    ({ seen_online := true, store := forward_pending s.store }, true)
  else if !online then ({ s with seen_online := false }, false)
  else (s, false)

/-! Concrete fixtures used by counterexamples and witnesses. -/

/-- A directed packet addressed to node `B`, observed at node `A`. -/
def c1pkt : Packet :=
  { type := some "DM_MSG", id := some "m1", origin_id := some "X",
    dest_id := some "B", payload := some "help", timestamp := some "t1",
    hops := some 0, ttl := some 6 }

/-- A stored SOS row originated by node `A`. -/
def c6row : MessageRecord :=
  { id := "m6", origin_id := "A", origin_label := "alpha", dest_id := "",
    type := "SOS", payload := "p6", timestamp := "t6", received_at := "t6",
    hops := 0, ttl := 6, forwarded := 0, acknowledged := 0, resend_count := 0 }

/-- An acknowledgement packet referencing `c6row`, sent by node `C`. -/
def c6ack : Packet :=
  { type := some "DM_ACK", orig_msg_id := some "m6", from_node := some "C",
    timestamp := some "t7" }

/-- A stored SOS row originated by node `A`, as seen in node `B`'s store. -/
def c8row : MessageRecord :=
  { id := "m8", origin_id := "A", origin_label := "alpha", dest_id := "",
    type := "SOS", payload := "p8", timestamp := "t8", received_at := "t8",
    hops := 1, ttl := 6, forwarded := 0, acknowledged := 0, resend_count := 0 }

/-- C1, counterexample: a `DM_MSG` whose `dest_id` is non-empty and differs
from the receiving node's id, with `hops < ttl`, produces no outgoing packet
at all at that node (in particular no relay), and no store change: the
claimed relay does not happen. -/
theorem directed_packet_no_relay_cex :
    c1pkt.hops.getD 0 < c1pkt.ttl.getD MESSAGE_TTL ∧
    c1pkt.dest_id.getD "" ≠ "" ∧ c1pkt.dest_id.getD "" ≠ "A" ∧
    on_incoming_message c1pkt "A" [] "t0" = ([], []) := by decide

/-- C1 (amended): an incoming `DM_MSG` whose `dest_id` is non-empty and
different from the receiving node's id is ignored entirely: the store is
unchanged and nothing is emitted (no relay, no acknowledgement, no
processing). -/
theorem directed_packet_ignored_entirely (msg : Packet) (node_id : String)
    (st : Storage) (now : String) (ht : msg.type = some "DM_MSG")
    (h1 : msg.dest_id.getD "" ≠ "") (h2 : msg.dest_id.getD "" ≠ node_id) :
    on_incoming_message msg node_id st now = (st, []) := by
  simp [on_incoming_message, ht, h1, h2]

/-- C1 witness: the amended theorem applied at a concrete directed packet. -/
theorem directed_packet_ignored_entirely_witness :
    on_incoming_message c1pkt "A" [] "t0" = ([], []) :=
  directed_packet_ignored_entirely c1pkt "A" [] "t0" rfl
    (by decide) (by decide)

/-- C2: for a message id not yet present, `Storage.insert_message` returns
`True` and appends a record whose `forwarded`, `acknowledged` and
`resend_count` are all `0` (the call sites pass these keys absent or `0`);
every subsequent insertion of any message with the same id returns `False`
and leaves the table exactly as it was. -/
theorem insert_message_dedup (st : Storage) (m : InsertArg) (now : String)
    (habs : ∀ r ∈ st, r.id ≠ m.id)
    (hf : m.forwarded.getD 0 = 0) (ha : m.acknowledged.getD 0 = 0)
    (hrc : m.resend_count.getD 0 = 0) :
    ∃ rec : MessageRecord,
      Storage.insert_message st m now = (true, st ++ [rec]) ∧
      rec.id = m.id ∧ rec.forwarded = 0 ∧ rec.acknowledged = 0 ∧
      rec.resend_count = 0 ∧
      ∀ (m2 : InsertArg) (now2 : String), m2.id = m.id →
        Storage.insert_message (st ++ [rec]) m2 now2 = (false, st ++ [rec]) := by
  have hany : st.any (fun r => decide (r.id = m.id)) = false := by
    rw [List.any_eq_false]
    intro r hr
    simp [habs r hr]
  refine ⟨inserted_row m now, ?_, rfl, hf, ha, hrc, ?_⟩
  · simp [Storage.insert_message, hany]
  · intro m2 now2 hm2
    simp [Storage.insert_message, hm2]
    exact fun _ => rfl

/-- C2 witness: the theorem applied at an empty table and a fresh id. -/
theorem insert_message_dedup_witness :
    ∃ rec : MessageRecord,
      Storage.insert_message [] { id := "w2" } "t0" = (true, [] ++ [rec]) ∧
      rec.id = ({ id := "w2" } : InsertArg).id ∧ rec.forwarded = 0 ∧
      rec.acknowledged = 0 ∧ rec.resend_count = 0 ∧
      ∀ (m2 : InsertArg) (now2 : String), m2.id = ({ id := "w2" } : InsertArg).id →
        Storage.insert_message ([] ++ [rec]) m2 now2 = (false, [] ++ [rec]) :=
  insert_message_dedup [] { id := "w2" } "t0" (by simp) rfl rfl rfl

/-- C3: a `DM_MSG` whose id is already present in the table leaves the
whole engine state untouched: the table (every stored field, `hops`
included) is exactly as before and no packet (neither a second ack nor a
re-relay) is emitted. -/
theorem duplicate_message_noop (msg : Packet) (node_id : String) (st : Storage)
    (now : String) (mid : String) (ht : msg.type = some "DM_MSG")
    (hid : msg.id = some mid) (hdup : ∃ r ∈ st, r.id = mid) :
    on_incoming_message msg node_id st now = (st, []) := by
  have hany : st.any (fun r => decide (r.id = mid)) = true := by
    rcases hdup with ⟨r, hr, hrid⟩
    exact List.any_eq_true.mpr ⟨r, hr, by simp [hrid]⟩
  simp [on_incoming_message, ht, hid, Storage.insert_message, hany]

/-- C3 witness: the theorem applied at a concrete duplicate reception. -/
theorem duplicate_message_noop_witness :
    on_incoming_message
      { type := some "DM_MSG", id := some "m6", hops := some 2, ttl := some 6 }
      "B" [c6row] "t9" = ([c6row], []) :=
  duplicate_message_noop _ "B" [c6row] "t9" "m6" rfl rfl ⟨c6row, by decide, rfl⟩

/-- The row stored on first admission of a `DM_MSG` packet: the argument
`on_incoming_message` passes to `storage.insert_message`, inserted. -/
def admitted_row (msg : Packet) (now : String) : MessageRecord :=
  inserted_row
    { id := msg.id.getD "", origin_id := msg.origin_id,
      origin_label := msg.origin_label, dest_id := msg.dest_id,
      type := some (msg.subtype.getD "SOS"), payload := msg.payload,
      timestamp := some (msg.timestamp.getD now),
      hops := some (msg.hops.getD 0), ttl := some (msg.ttl.getD MESSAGE_TTL) } now

/-- Helper: full evaluation of the relay engine on a first-seen `DM_MSG`
that passes the destination and id checks. -/
theorem on_incoming_first_seen (msg : Packet) (node_id : String) (st : Storage)
    (now : String) (ht : msg.type = some "DM_MSG")
    (hdest : msg.dest_id.getD "" = "" ∨ msg.dest_id.getD "" = node_id)
    (hmid : msg.id.getD "" ≠ "")
    (hnew : ∀ r ∈ st, r.id ≠ msg.id.getD "") :
    on_incoming_message msg node_id st now =
      (st ++ [admitted_row msg now],
       if msg.hops.getD 0 < msg.ttl.getD MESSAGE_TTL then
         [ack_packet (msg.id.getD "") node_id now,
          { msg with hops := some (msg.hops.getD 0 + 1) }]
       else [ack_packet (msg.id.getD "") node_id now]) := by
  have hdest2 : ¬(msg.dest_id.getD "" ≠ "" ∧ msg.dest_id.getD "" ≠ node_id) := by
    rcases hdest with h | h <;> simp [h]
  have hany : st.any (fun r => decide (r.id = msg.id.getD "")) = false := by
    rw [List.any_eq_false]
    intro r hr
    simp [hnew r hr]
  by_cases hlt : msg.hops.getD 0 < msg.ttl.getD MESSAGE_TTL <;>
    simp [on_incoming_message, ht, hdest2, hmid, Storage.insert_message, hany,
      admitted_row, hlt]

/-- C4: a first-seen `DM_MSG` arriving with `hops ≥ ttl` is stored and
acknowledged, but the only emitted packet is the `DM_ACK` — nothing of
type `DM_MSG` is re-emitted. -/
theorem ttl_exhausted_stored_and_acked (msg : Packet) (node_id : String)
    (st : Storage) (now : String) (ht : msg.type = some "DM_MSG")
    (hdest : msg.dest_id.getD "" = "" ∨ msg.dest_id.getD "" = node_id)
    (hmid : msg.id.getD "" ≠ "")
    (hnew : ∀ r ∈ st, r.id ≠ msg.id.getD "")
    (httl : msg.ttl.getD MESSAGE_TTL ≤ msg.hops.getD 0) :
    ∃ rec : MessageRecord,
      on_incoming_message msg node_id st now =
        (st ++ [rec], [ack_packet (msg.id.getD "") node_id now]) ∧
      rec.id = msg.id.getD "" ∧ rec.hops = msg.hops.getD 0 ∧
      rec.ttl = msg.ttl.getD MESSAGE_TTL ∧
      (ack_packet (msg.id.getD "") node_id now).type = some "DM_ACK" ∧
      ∀ p ∈ (on_incoming_message msg node_id st now).2,
        p.type ≠ some "DM_MSG" := by
  have h := on_incoming_first_seen msg node_id st now ht hdest hmid hnew
  rw [if_neg (not_lt.mpr httl)] at h
  refine ⟨admitted_row msg now, h, rfl, rfl, rfl, rfl, ?_⟩
  rw [h]
  intro p hp
  simp only [List.mem_singleton] at hp
  subst hp
  simp [ack_packet]

/-- C4 witness: the theorem applied at a concrete exhausted packet. -/
theorem ttl_exhausted_stored_and_acked_witness :
    ∃ rec : MessageRecord,
      on_incoming_message
          { type := some "DM_MSG", id := some "w4", payload := some "p4",
            hops := some 7, ttl := some 3 } "N4" [] "t4" =
        ([] ++ [rec], [ack_packet "w4" "N4" "t4"]) ∧
      rec.id = "w4" ∧ rec.hops = 7 ∧ rec.ttl = 3 ∧
      (ack_packet "w4" "N4" "t4").type = some "DM_ACK" ∧
      ∀ p ∈ (on_incoming_message
          { type := some "DM_MSG", id := some "w4", payload := some "p4",
            hops := some 7, ttl := some 3 } "N4" [] "t4").2,
        p.type ≠ some "DM_MSG" :=
  ttl_exhausted_stored_and_acked _ "N4" [] "t4" rfl (Or.inl rfl) (by decide)
    (by simp) (by decide)

/-- C5: when a first-seen `DM_MSG` with `hops < ttl` is relayed, the
re-emitted packet is the incoming packet with `hops` replaced by
`hops + 1` and every other field (id, ttl, origin, label, dest, subtype,
payload, timestamp, type) unchanged. -/
theorem relay_increments_hops_only (msg : Packet) (node_id : String)
    (st : Storage) (now : String) (ht : msg.type = some "DM_MSG")
    (hdest : msg.dest_id.getD "" = "" ∨ msg.dest_id.getD "" = node_id)
    (hmid : msg.id.getD "" ≠ "")
    (hnew : ∀ r ∈ st, r.id ≠ msg.id.getD "")
    (hlt : msg.hops.getD 0 < msg.ttl.getD MESSAGE_TTL) :
    ∃ (rec : MessageRecord) (out : Packet),
      on_incoming_message msg node_id st now =
        (st ++ [rec], [ack_packet (msg.id.getD "") node_id now, out]) ∧
      out = { msg with hops := some (msg.hops.getD 0 + 1) } ∧
      out.hops = some (msg.hops.getD 0 + 1) ∧ out.id = msg.id ∧
      out.ttl = msg.ttl ∧ out.origin_id = msg.origin_id ∧
      out.origin_label = msg.origin_label ∧ out.dest_id = msg.dest_id ∧
      out.subtype = msg.subtype ∧ out.payload = msg.payload ∧
      out.timestamp = msg.timestamp ∧ out.type = msg.type := by
  have h := on_incoming_first_seen msg node_id st now ht hdest hmid hnew
  rw [if_pos hlt] at h
  exact ⟨admitted_row msg now, { msg with hops := some (msg.hops.getD 0 + 1) },
    h, rfl, rfl, rfl, rfl, rfl, rfl, rfl, rfl, rfl, rfl, rfl⟩

/-- C5 witness: the theorem applied at a concrete relayable packet. -/
theorem relay_increments_hops_only_witness :
    ∃ (rec : MessageRecord) (out : Packet),
      on_incoming_message
          { type := some "DM_MSG", id := some "w5", origin_id := some "O5",
            payload := some "p5", hops := some 2, ttl := some 6 }
          "N5" [] "t5" =
        ([] ++ [rec], [ack_packet "w5" "N5" "t5", out]) ∧
      out = { ({ type := some "DM_MSG", id := some "w5", origin_id := some "O5",
                 payload := some "p5", hops := some 2, ttl := some 6 } : Packet)
              with hops := some (2 + 1) } ∧
      out.hops = some (2 + 1) ∧ out.id = some "w5" ∧ out.ttl = some 6 ∧
      out.origin_id = some "O5" ∧ out.origin_label = none ∧
      out.dest_id = none ∧ out.subtype = none ∧ out.payload = some "p5" ∧
      out.timestamp = none ∧ out.type = some "DM_MSG" :=
  relay_increments_hops_only _ "N5" [] "t5" rfl (Or.inl rfl) (by decide)
    (by simp) (by decide)

/-- C6, counterexample: node `B` stores a message originated by node `A`
with `acknowledged = 0`; receiving a `DM_ACK` for that id at `B` sets
`acknowledged = 1` there, although `B` is not the originator. -/
theorem ack_at_non_origin_cex :
    c6row.origin_id ≠ "B" ∧ c6row.acknowledged = 0 ∧
    on_incoming_message c6ack "B" [c6row] "t9" =
      ([{ c6row with acknowledged := 1 }], []) := by decide

/-- C6 (amended): receiving a `DM_ACK` whose referenced id is present in
the store marks that id acknowledged at the receiving node, whether or not
that node originated the message (no originator check is performed). -/
theorem ack_marks_any_storing_node (msg : Packet) (node_id : String)
    (st : Storage) (now : String) (omid : String)
    (ht : msg.type = some "DM_ACK") (hid : msg.orig_msg_id = some omid)
    (homid : omid ≠ "")
    (hstored : (Storage.get_message st omid).isSome = true) :
    on_incoming_message msg node_id st now =
      (Storage.mark_acknowledged st omid, []) ∧
    ∀ r ∈ st, r.id = omid →
      ({ r with acknowledged := 1 } : MessageRecord) ∈
        (on_incoming_message msg node_id st now).1 := by
  rcases Option.isSome_iff_exists.mp hstored with ⟨r0, hr0⟩
  have hmain : on_incoming_message msg node_id st now =
      (Storage.mark_acknowledged st omid, []) := by
    simp [on_incoming_message, ht, hid, homid, hr0]
  refine ⟨hmain, ?_⟩
  intro r hr hrid
  rw [hmain]
  simp only [Storage.mark_acknowledged]
  exact List.mem_map.mpr ⟨r, hr, by simp [hrid]⟩

/-- C6 witness: the amended theorem applied at node `B` for a message
originated by node `A`. -/
theorem ack_marks_any_storing_node_witness :
    on_incoming_message c6ack "B" [c6row] "t9" =
      (Storage.mark_acknowledged [c6row] "m6", []) ∧
    ∀ r ∈ [c6row], r.id = "m6" →
      ({ r with acknowledged := 1 } : MessageRecord) ∈
        (on_incoming_message c6ack "B" [c6row] "t9").1 :=
  ack_marks_any_storing_node c6ack "B" [c6row] "t9" "m6" rfl rfl
    (by decide) (by decide)

/-- `increment_resend` never changes the id column of any row. -/
theorem increment_resend_ids (st : Storage) (mid : String) :
    (Storage.increment_resend st mid).map MessageRecord.id =
      st.map MessageRecord.id := by
  simp only [Storage.increment_resend, List.map_map]
  congr 1
  funext r
  by_cases h : r.id = mid <;> simp [h]

/-- A row whose id differs from the updated id survives
`increment_resend` literally unchanged. -/
theorem mem_increment_resend_of_ne {st : Storage} {mid : String}
    {r : MessageRecord} (hr : r ∈ st) (hne : r.id ≠ mid) :
    r ∈ Storage.increment_resend st mid := by
  simp only [Storage.increment_resend]
  exact List.mem_map.mpr ⟨r, hr, by simp [hne]⟩

/-- The loop body skips a row originated elsewhere or at the resend cap. -/
theorem sos_cycle_step_skip (node_id : String) (acc : Storage × List Packet)
    (row : MessageRecord)
    (h : row.origin_id ≠ node_id ∨ MAX_SOS_RESENDS ≤ row.resend_count) :
    sos_cycle_step node_id acc row = acc := by
  rcases h with h | h
  · simp [sos_cycle_step, h]
  · by_cases h2 : row.origin_id ≠ node_id <;> simp [sos_cycle_step, h, h2]

/-- The loop body resends a locally-originated row under the cap. -/
theorem sos_cycle_step_send (node_id : String) (acc : Storage × List Packet)
    (row : MessageRecord) (h1 : row.origin_id = node_id)
    (h2 : row.resend_count < MAX_SOS_RESENDS) :
    sos_cycle_step node_id acc row =
      (Storage.increment_resend acc.1 row.id,
       acc.2 ++ [resend_packet row]) := by
  simp [sos_cycle_step, h1, not_le.mpr h2]

/-- Fold invariant: a row that every snapshot row sharing its id fails to
qualify for stays in the table, and no sent packet carries its id. -/
theorem sos_fold_keep (node_id : String) (r : MessageRecord) :
    ∀ (rows : List MessageRecord) (acc : Storage × List Packet),
      r ∈ acc.1 →
      (∀ p ∈ acc.2, p.id ≠ some r.id) →
      (∀ row ∈ rows, row.id = r.id →
        row.origin_id ≠ node_id ∨ MAX_SOS_RESENDS ≤ row.resend_count) →
      r ∈ (rows.foldl (sos_cycle_step node_id) acc).1 ∧
      ∀ p ∈ (rows.foldl (sos_cycle_step node_id) acc).2,
        p.id ≠ some r.id := by
  intro rows
  induction rows with
  | nil => exact fun acc h1 h2 _ => ⟨h1, h2⟩
  | cons row rows ih =>
    intro acc h1 h2 h3
    simp only [List.foldl_cons]
    by_cases hpass : row.origin_id = node_id ∧ row.resend_count < MAX_SOS_RESENDS
    · have hne : row.id ≠ r.id := by
        intro he
        rcases h3 row (List.mem_cons_self row rows) he with h | h
        · exact h hpass.1
        · exact absurd hpass.2 (not_lt.mpr h)
      rw [sos_cycle_step_send node_id acc row hpass.1 hpass.2]
      apply ih
      · exact mem_increment_resend_of_ne h1 (fun he => hne he.symm)
      · intro p hpmem
        rcases List.mem_append.mp hpmem with hold | hnew2
        · exact h2 p hold
        · simp only [List.mem_singleton] at hnew2
          subst hnew2
          simpa [resend_packet] using hne
      · exact fun x hx => h3 x (List.mem_cons_of_mem row hx)
    · have hskip : row.origin_id ≠ node_id ∨
          MAX_SOS_RESENDS ≤ row.resend_count := by
        by_cases ho : row.origin_id = node_id
        · exact Or.inr (not_lt.mp (fun hc => hpass ⟨ho, hc⟩))
        · exact Or.inl ho
      rw [sos_cycle_step_skip node_id acc row hskip]
      exact ih acc h1 h2 (fun x hx => h3 x (List.mem_cons_of_mem row hx))

/-- The fold never changes the id column of the table. -/
theorem sos_fold_ids (node_id : String) :
    ∀ (rows : List MessageRecord) (acc : Storage × List Packet),
      ((rows.foldl (sos_cycle_step node_id) acc).1).map MessageRecord.id =
        acc.1.map MessageRecord.id := by
  intro rows
  induction rows with
  | nil => exact fun acc => rfl
  | cons row rows ih =>
    intro acc
    simp only [List.foldl_cons]
    rw [ih]
    by_cases hpass : row.origin_id = node_id ∧ row.resend_count < MAX_SOS_RESENDS
    · rw [sos_cycle_step_send node_id acc row hpass.1 hpass.2]
      exact increment_resend_ids acc.1 row.id
    · have hskip : row.origin_id ≠ node_id ∨
          MAX_SOS_RESENDS ≤ row.resend_count := by
        by_cases ho : row.origin_id = node_id
        · exact Or.inr (not_lt.mp (fun hc => hpass ⟨ho, hc⟩))
        · exact Or.inl ho
      rw [sos_cycle_step_skip node_id acc row hskip]

/-- Every packet the fold emits comes from a qualifying snapshot row:
originated by this node and strictly below the resend cap. -/
theorem sos_fold_sent (node_id : String) :
    ∀ (rows : List MessageRecord) (acc : Storage × List Packet) (p : Packet),
      p ∈ (rows.foldl (sos_cycle_step node_id) acc).2 →
      p ∈ acc.2 ∨ ∃ row, row ∈ rows ∧ row.origin_id = node_id ∧
        row.resend_count < MAX_SOS_RESENDS ∧ p = resend_packet row := by
  intro rows
  induction rows with
  | nil => exact fun acc p hp => Or.inl hp
  | cons row rows ih =>
    intro acc p hp
    simp only [List.foldl_cons] at hp
    by_cases hpass : row.origin_id = node_id ∧ row.resend_count < MAX_SOS_RESENDS
    · rw [sos_cycle_step_send node_id acc row hpass.1 hpass.2] at hp
      rcases ih _ p hp with hold | ⟨row2, hrow2, hh1, hh2, hh3⟩
      · rcases List.mem_append.mp hold with h | h
        · exact Or.inl h
        · simp only [List.mem_singleton] at h
          exact Or.inr ⟨row, List.mem_cons_self row rows, hpass.1, hpass.2, h⟩
      · exact Or.inr ⟨row2, List.mem_cons_of_mem row hrow2, hh1, hh2, hh3⟩
    · have hskip : row.origin_id ≠ node_id ∨
          MAX_SOS_RESENDS ≤ row.resend_count := by
        by_cases ho : row.origin_id = node_id
        · exact Or.inr (not_lt.mp (fun hc => hpass ⟨ho, hc⟩))
        · exact Or.inl ho
      rw [sos_cycle_step_skip node_id acc row hskip] at hp
      rcases ih acc p hp with h | ⟨row2, hrow2, hh1, hh2, hh3⟩
      · exact Or.inl h
      · exact Or.inr ⟨row2, List.mem_cons_of_mem row hrow2, hh1, hh2, hh3⟩

/-- One scheduler cycle never changes the id column of the table. -/
theorem sos_cycle_ids (node_id : String) (st : Storage) :
    ((sos_resender_cycle node_id st).1).map MessageRecord.id =
      st.map MessageRecord.id := by
  simp only [sos_resender_cycle]
  exact sos_fold_ids node_id _ (st, [])

/-- Any number of scheduler cycles never changes the id column. -/
theorem sos_cycleN_ids (node_id : String) (k : Nat) (st : Storage) :
    (sos_cycleN node_id k st).map MessageRecord.id =
      st.map MessageRecord.id := by
  induction k with
  | zero => rfl
  | succ k ih =>
    simp only [sos_cycleN]
    rw [sos_cycle_ids, ih]

/-- One cycle leaves a foreign or capped row untouched and sends nothing
carrying its id. -/
theorem sos_cycle_keep (node_id : String) (st : Storage) (r : MessageRecord)
    (hr : r ∈ st)
    (hskip : r.origin_id ≠ node_id ∨ MAX_SOS_RESENDS ≤ r.resend_count)
    (hnodup : (st.map MessageRecord.id).Nodup) :
    r ∈ (sos_resender_cycle node_id st).1 ∧
    ∀ p ∈ (sos_resender_cycle node_id st).2, p.id ≠ some r.id := by
  simp only [sos_resender_cycle]
  apply sos_fold_keep node_id r (Storage.get_unacknowledged_sos st) (st, []) hr
    (by simp)
  intro row hrow hid
  have hrowst : row ∈ st := List.mem_of_mem_filter hrow
  have heq : row = r := List.inj_on_of_nodup_map hnodup hrowst hr hid
  rw [heq]
  exact hskip

/-- C7: in every scheduler cycle, a resend packet is sent for a row only
if this node originated it and its `resend_count` is strictly below
`MAX_SOS_RESENDS`; a row originated elsewhere or at the cap stays in the
table literally unchanged (not sent, not deleted, count untouched) in
that cycle and in all later cycles, and no cycle changes the id column. -/
theorem sos_resender_skips_foreign_and_capped (node_id : String)
    (st : Storage) (r : MessageRecord) (hr : r ∈ st)
    (hskip : r.origin_id ≠ node_id ∨ MAX_SOS_RESENDS ≤ r.resend_count)
    (hnodup : (st.map MessageRecord.id).Nodup) :
    ∀ k : Nat,
      r ∈ sos_cycleN node_id k st ∧
      (∀ p ∈ (sos_resender_cycle node_id (sos_cycleN node_id k st)).2,
          p.id ≠ some r.id) ∧
      (∀ p ∈ (sos_resender_cycle node_id (sos_cycleN node_id k st)).2,
          ∃ row, row ∈ Storage.get_unacknowledged_sos (sos_cycleN node_id k st) ∧
            row.origin_id = node_id ∧ row.resend_count < MAX_SOS_RESENDS ∧
            p = resend_packet row) ∧
      (sos_cycleN node_id k st).map MessageRecord.id =
        st.map MessageRecord.id := by
  have hmem : ∀ k, r ∈ sos_cycleN node_id k st := by
    intro k
    induction k with
    | zero => exact hr
    | succ k ih =>
      have hnodk : ((sos_cycleN node_id k st).map MessageRecord.id).Nodup := by
        rw [sos_cycleN_ids]
        exact hnodup
      simpa only [sos_cycleN] using
        (sos_cycle_keep node_id _ r ih hskip hnodk).1
  intro k
  have hnodk : ((sos_cycleN node_id k st).map MessageRecord.id).Nodup := by
    rw [sos_cycleN_ids]
    exact hnodup
  refine ⟨hmem k, (sos_cycle_keep node_id _ r (hmem k) hskip hnodk).2, ?_,
    sos_cycleN_ids node_id k st⟩
  intro p hp
  simp only [sos_resender_cycle] at hp
  rcases sos_fold_sent node_id _ _ p hp with h | h
  · simp at h
  · exact h

/-- A stored SOS row originated by node `B`, observed by node `A`'s
scheduler. -/
def c7row : MessageRecord :=
  { id := "m7", origin_id := "B", origin_label := "beta", dest_id := "",
    type := "SOS", payload := "p7", timestamp := "t7a", received_at := "t7a",
    hops := 0, ttl := 6, forwarded := 0, acknowledged := 0, resend_count := 0 }

/-- C7 witness: the theorem applied to a foreign row, one cycle deep. -/
theorem sos_resender_skips_foreign_and_capped_witness :
    c7row ∈ sos_cycleN "A" 1 [c7row] ∧
    (∀ p ∈ (sos_resender_cycle "A" (sos_cycleN "A" 1 [c7row])).2,
        p.id ≠ some c7row.id) ∧
    (∀ p ∈ (sos_resender_cycle "A" (sos_cycleN "A" 1 [c7row])).2,
        ∃ row, row ∈ Storage.get_unacknowledged_sos (sos_cycleN "A" 1 [c7row]) ∧
          row.origin_id = "A" ∧ row.resend_count < MAX_SOS_RESENDS ∧
          p = resend_packet row) ∧
    (sos_cycleN "A" 1 [c7row]).map MessageRecord.id =
      [c7row].map MessageRecord.id :=
  sos_resender_skips_foreign_and_capped "A" [c7row] c7row (by decide)
    (by decide) (by decide) 1

/-- C8, counterexample: `get_unacknowledged_sos` takes no node identity and
applies no origin restriction: on node `B`'s store it returns a row
originated by node `A`, contradicting "restricted to messages this node
originated". -/
theorem get_unacknowledged_sos_no_origin_cex :
    c8row.origin_id ≠ "B" ∧
    Storage.get_unacknowledged_sos [c8row] = [c8row] := by decide

/-- C8 (amended): `get_unacknowledged_sos` returns exactly the rows of
kind `SOS` with `acknowledged = 0` and `ttl > 0`, in table (oldest-first)
order, with no restriction on the originator; the origin restriction is
applied by its caller `sos_resender_task`, so every packet a scheduler
cycle emits is originated by the local node. -/
theorem get_unacknowledged_sos_characterization (st : Storage) :
    (∀ r : MessageRecord, r ∈ Storage.get_unacknowledged_sos st ↔
      r ∈ st ∧ r.type = "SOS" ∧ r.acknowledged = 0 ∧ 0 < r.ttl) ∧
    (Storage.get_unacknowledged_sos st).Sublist st ∧
    ∀ (node_id : String) (p : Packet),
      p ∈ (sos_resender_cycle node_id st).2 → p.origin_id = some node_id := by
  refine ⟨?_, ?_, ?_⟩
  · intro r
    simp [Storage.get_unacknowledged_sos, List.mem_filter]
  · exact List.filter_sublist st
  · intro node_id p hp
    simp only [sos_resender_cycle] at hp
    rcases sos_fold_sent node_id _ _ p hp with h | ⟨row, _, horig, _, hpk⟩
    · simp at h
    · rw [hpk, resend_packet, horig]

/-- C9: edge-triggered forwarding of `SignalNotifier.run`: from a state
that has not yet seen the network online, an online observation triggers
exactly one forwarding batch over the pending snapshot; an immediately
following online observation triggers nothing and changes nothing; any
offline observation resets the edge without touching the store, after
which an online observation triggers a fresh batch over the then-pending
messages. -/
theorem connectivity_edge_debounce (s : NotifierState)
    (h : s.seen_online = false) :
    (notifier_step s true).2 = true ∧
    (notifier_step s true).1.store = forward_pending s.store ∧
    notifier_step (notifier_step s true).1 true =
      ((notifier_step s true).1, false) ∧
    (∀ t : NotifierState, (notifier_step t false).1.seen_online = false ∧
      (notifier_step t false).1.store = t.store ∧
      (notifier_step t false).2 = false) ∧
    (∀ t : NotifierState, t.seen_online = false →
      (notifier_step t true).2 = true ∧
      (notifier_step t true).1.store = forward_pending t.store) := by
  refine ⟨by simp [notifier_step, h], by simp [notifier_step, h], ?_, ?_, ?_⟩
  · have h1 : notifier_step s true =
        ({ seen_online := true, store := forward_pending s.store }, true) := by
      simp [notifier_step, h]
    rw [h1]
    simp [notifier_step]
  · intro t
    refine ⟨?_, ?_, ?_⟩ <;> simp [notifier_step]
  · intro t ht
    exact ⟨by simp [notifier_step, ht], by simp [notifier_step, ht]⟩

/-- C9 witness: the theorem applied at a fresh notifier over an empty
store. -/
theorem connectivity_edge_debounce_witness :
    (notifier_step ⟨false, []⟩ true).2 = true ∧
    (notifier_step ⟨false, []⟩ true).1.store = forward_pending [] ∧
    notifier_step (notifier_step ⟨false, []⟩ true).1 true =
      ((notifier_step ⟨false, []⟩ true).1, false) ∧
    (∀ t : NotifierState, (notifier_step t false).1.seen_online = false ∧
      (notifier_step t false).1.store = t.store ∧
      (notifier_step t false).2 = false) ∧
    (∀ t : NotifierState, t.seen_online = false →
      (notifier_step t true).2 = true ∧
      (notifier_step t true).1.store = forward_pending t.store) :=
  connectivity_edge_debounce ⟨false, []⟩ rfl

/-- C10: a first-seen `DM_MSG` that carries an id but no `subtype` key is
admitted with kind `SOS`, and with `ttl = MESSAGE_TTL = 6` when it also
carries no `ttl` key; the stored row is then a member of both the pending
set and the unacknowledged-SOS set of the resulting table. -/
theorem missing_subtype_admitted_as_sos (msg : Packet) (node_id : String)
    (st : Storage) (now : String) (ht : msg.type = some "DM_MSG")
    (hdest : msg.dest_id.getD "" = "" ∨ msg.dest_id.getD "" = node_id)
    (hmid : msg.id.getD "" ≠ "")
    (hnew : ∀ r ∈ st, r.id ≠ msg.id.getD "")
    (hsub : msg.subtype = none) (httl : msg.ttl = none) :
    ∃ rec : MessageRecord,
      (on_incoming_message msg node_id st now).1 = st ++ [rec] ∧
      rec.id = msg.id.getD "" ∧ rec.type = "SOS" ∧
      rec.ttl = MESSAGE_TTL ∧ MESSAGE_TTL = 6 ∧
      rec ∈ Storage.get_pending_messages (st ++ [rec]) ∧
      rec ∈ Storage.get_unacknowledged_sos (st ++ [rec]) := by
  have h := on_incoming_first_seen msg node_id st now ht hdest hmid hnew
  have htype : (admitted_row msg now).type = "SOS" := by
    simp [admitted_row, inserted_row, hsub]
  have httl2 : (admitted_row msg now).ttl = MESSAGE_TTL := by
    simp [admitted_row, inserted_row, httl]
  have hack : (admitted_row msg now).acknowledged = 0 := rfl
  have hfwd : (admitted_row msg now).forwarded = 0 := rfl
  have hmem : admitted_row msg now ∈ st ++ [admitted_row msg now] := by simp
  refine ⟨admitted_row msg now, ?_, rfl, htype, httl2, rfl, ?_, ?_⟩
  · rw [h]
  · exact List.mem_filter.mpr ⟨hmem, by simp [hfwd]⟩
  · exact List.mem_filter.mpr ⟨hmem,
      by simp [htype, hack, httl2, MESSAGE_TTL]⟩

/-- C10 witness: the theorem applied at a concrete unmarked packet. -/
theorem missing_subtype_admitted_as_sos_witness :
    ∃ rec : MessageRecord,
      (on_incoming_message
          { type := some "DM_MSG", id := some "w10", payload := some "x" }
          "N10" [] "t10").1 = [] ++ [rec] ∧
      rec.id = "w10" ∧ rec.type = "SOS" ∧
      rec.ttl = MESSAGE_TTL ∧ MESSAGE_TTL = 6 ∧
      rec ∈ Storage.get_pending_messages ([] ++ [rec]) ∧
      rec ∈ Storage.get_unacknowledged_sos ([] ++ [rec]) :=
  missing_subtype_admitted_as_sos _ "N10" [] "t10" rfl (Or.inl rfl)
    (by decide) (by simp) rfl rfl
